import Mathlib

/-!
Verification of the crucible flag-evaluation engine: the deterministic
bucketing hash, the local adapter's precedence chain, the context merger
and the client facade (crucible-core createFlagClient together with the
local adapter's LocalAdapter class).

Strings are modelled as lists of UTF-16 code units (Nat); JS runtime
values as the JSVal sum; JS numbers used for rollout percentages as the
JSNum sum (finite rationals plus the non-finite doubles). All definitions
are direct translations of the TypeScript source.
-/

namespace Crucible

/-- JS runtime values that flow through the flag engine: undefined, null,
booleans, finite numbers (modelled as rationals) and strings (modelled as
lists of UTF-16 code units). -/
inductive JSVal where
  | undefined
  | null
  | bool (b : Bool)
  | num (q : Rat)
  | str (s : List Nat)
  deriving DecidableEq

/-- Whether a value is nullish (undefined or null), the test made by the
JS nullish-coalescing operator. -/
def JSVal.isNullish : JSVal → Bool
  | .undefined => true
  | .null => true
  | _ => false

/-- JS expression a ?? b. -/
def nullishCoalesce (a b : JSVal) : JSVal :=
  if a.isNullish then b else a

/-- JS numbers as used for rollout percentages: a finite value (rational)
or one of the non-finite doubles NaN, Infinity, -Infinity. -/
inductive JSNum where
  | fin (q : Rat)
  | nan
  | posInf
  | negInf
  deriving DecidableEq

/-- Number.isFinite. -/
def JSNum.isFinite : JSNum → Bool
  | .fin _ => true
  | _ => false

/-- JS comparison a < b (false whenever either side is NaN). -/
def JSNum.lt : JSNum → JSNum → Bool
  | .nan, _ => false
  | _, .nan => false
  | .fin a, .fin b => decide (a < b)
  | .fin _, .posInf => true
  | .fin _, .negInf => false
  | .posInf, _ => false
  | .negInf, .negInf => false
  | .negInf, _ => true

/-- JS comparison a <= b (false whenever either side is NaN). -/
def JSNum.le : JSNum → JSNum → Bool
  | .nan, _ => false
  | _, .nan => false
  | .fin a, .fin b => decide (a ≤ b)
  | .fin _, .posInf => true
  | .fin _, .negInf => false
  | .negInf, _ => true
  | .posInf, .posInf => true
  | .posInf, _ => false

/-- Truncation of an integer to a signed 32-bit value, as the JS bitwise
operators perform it (the ToInt32 abstract operation). -/
def toInt32 (x : Int) : Int :=
  if x % 4294967296 < 2147483648 then x % 4294967296
  else x % 4294967296 - 4294967296

/-- One iteration of the loop body of LocalAdapter.simpleHash:
hash = (hash << 5) - hash + char; hash = hash & hash. The shift truncates
hash * 32 to int32, the additive part is exact double arithmetic at these
magnitudes, and the trailing bitwise-and truncates the sum to int32. -/
def hashStep (h : Int) (c : Nat) : Int :=
  toInt32 (toInt32 (h * 32) - h + (c : Int))

/-- LocalAdapter.simpleHash: fold the step over the code units of the
input starting from 0 and take Math.abs of the final signed value. -/
def simpleHash (s : List Nat) : Nat :=
  (s.foldl hashStep 0).natAbs

/-- Code units of the colon separator used in the rollout key. -/
def colonCode : List Nat := [58]

/-- Code units of the string substituted when a rollout has no seed. -/
def defaultSeed : List Nat := [100, 101, 102, 97, 117, 108, 116]

/-- The rollout key built by LocalAdapter.isUserInRollout:
userId + colon + flag + colon + (seed ?? default). -/
def rolloutKey (userId flag : List Nat) (seed : Option (List Nat)) : List Nat :=
  userId ++ colonCode ++ flag ++ colonCode ++ seed.getD defaultSeed

/-- The bucket a subject falls into for a flag and seed: the simpleHash of
the rollout key reduced modulo 100. -/
def bucketOf (userId flag : List Nat) (seed : Option (List Nat)) : Nat :=
  simpleHash (rolloutKey userId flag seed) % 100

/-- LocalAdapter.isUserInRollout: percentage at most 0 is always out,
percentage at least 100 always in, otherwise compare the bucket with the
percentage (JS comparisons, so a NaN percentage fails every test). -/
def isUserInRollout (userId : List Nat) (percentage : JSNum) (flag : List Nat)
    (seed : Option (List Nat)) : Bool :=
  if percentage.le (.fin 0) then false
  else if (JSNum.fin 100).le percentage then true
  else (JSNum.fin (bucketOf userId flag seed : Rat)).lt percentage

/-- Attribute maps: string-keyed JS objects, modelled as functions from
key code-unit lists to optional values. -/
def AttrMap : Type := List Nat → Option JSVal

/-- EvaluationContext from crucible-core: optional userId and optional
attributes object. -/
structure EvaluationContext where
  userId : Option (List Nat)
  attributes : Option AttrMap

/-- JS truthiness of the optional userId string: absent and the empty
string are falsy, any other string is truthy. -/
def truthyUserId : Option (List Nat) → Bool
  | some s => decide (s ≠ [])
  | none => false

/-- RolloutRule from the local adapter. The match predicate is an
arbitrary function value; the field is named matchFn because match is a
Lean keyword. -/
structure RolloutRule where
  flag : List Nat
  matchFn : EvaluationContext → Bool
  variant : JSVal

/-- PercentageRollout from the local adapter. -/
structure PercentageRollout where
  flag : List Nat
  percentage : JSNum
  variant : JSVal
  seed : Option (List Nat)

/-- LocalAdapterConfig: static flag values (a missing entry reads as
undefined, as JS property access does), targeting rules and percentage
rollouts (an absent optional array behaves as the empty list, since
optional chaining on undefined yields undefined). -/
structure LocalAdapterConfig where
  flags : List Nat → JSVal
  rules : List RolloutRule
  rollouts : List PercentageRollout

/-- LocalAdapter.validatePercentage: throws unless the percentage is a
finite number within [0, 100]. The typeof check always passes in this
typed model and the error payload is irrelevant, so errors carry Unit. -/
def validatePercentage (percentage : JSNum) : Except Unit Unit :=
  if !percentage.isFinite then .error ()
  else if percentage.lt (.fin 0) || (JSNum.fin 100).lt percentage then .error ()
  else .ok ()

/-- The forEach loop in the LocalAdapter constructor: validate every
rollout percentage, throwing at the first invalid one. -/
def validateRollouts : List PercentageRollout → Except Unit Unit
  | [] => .ok ()
  | r :: rs =>
    match validatePercentage r.percentage with
    | .error e => .error e
    | .ok _ => validateRollouts rs

/-- LocalAdapter construction: validate all rollout percentages, then
yield the stored config. -/
def mkLocalAdapter (cfg : LocalAdapterConfig) : Except Unit LocalAdapterConfig :=
  match validateRollouts cfg.rollouts with
  | .error e => .error e
  | .ok _ => .ok cfg

/-- LocalAdapter.evaluate: the first rule whose flag matches and whose
predicate accepts the context wins; otherwise the rollout entry for the
flag applies when the context has a truthy userId and the user is in the
rollout; otherwise the static value coalesced with the supplied default. -/
def localEvaluate (cfg : LocalAdapterConfig) (flag : List Nat)
    (context : EvaluationContext) (defaultValue : JSVal) : JSVal :=
  match cfg.rules.find? (fun r => r.flag == flag && r.matchFn context) with
  | some rule => rule.variant
  | none =>
    match cfg.rollouts.find? (fun r => r.flag == flag) with
    | some rollout =>
      if truthyUserId context.userId then
        if isUserInRollout (context.userId.getD []) rollout.percentage flag rollout.seed then
          rollout.variant
        else nullishCoalesce (cfg.flags flag) defaultValue
      else nullishCoalesce (cfg.flags flag) defaultValue
    | none => nullishCoalesce (cfg.flags flag) defaultValue

/-- Schema entries: an enumerated string domain or a primitive type tag. -/
inductive SchemaEntry where
  | enum (variants : List (List Nat))
  | strTag
  | numTag
  | boolTag

/-- getSchemaDefault from crucible-core, applied to schema[flag]. A flag
unknown to the schema reads as undefined (none); an empty enumerated
array yields undefined as well because array[0] is then undefined. -/
def getSchemaDefault : Option SchemaEntry → JSVal
  | some (.enum []) => .undefined
  | some (.enum (v :: _)) => .str v
  | some .strTag => .str []
  | some .numTag => .num 0
  | some .boolTag => .bool false
  | none => .undefined

/-- JS object-spread override of one optional field: the override wins
when present, otherwise the base value is kept. -/
def overrideOpt {α : Type} (base ov : Option α) : Option α :=
  match ov with
  | some x => some x
  | none => base

/-- Attribute lookup on a context whose attributes object may be absent
(spreading undefined spreads nothing). -/
def attrsOf (c : EvaluationContext) (k : List Nat) : Option JSVal :=
  match c.attributes with
  | some f => f k
  | none => none

/-- The merged context built in createFlagClient.evaluate: spread of the
default context then the call context (so the call context's userId wins
when present), with attributes spread one level deep (call context wins
per key); the merged attributes object is always present. -/
def mergeContext (base ov : EvaluationContext) : EvaluationContext :=
  { userId := overrideOpt base.userId ov.userId
    attributes := some (fun k => overrideOpt (attrsOf base k) (attrsOf ov k)) }

/-- Rejection causes of the facade evaluate method: the guard that fires
when the client is not initialized. -/
inductive FacadeError where
  | notInit
  deriving DecidableEq

/-- Outcome of one facade evaluate call: the settled promise (rejection or
resolved value) plus the list of exposure-callback invocations
(flag, variant) performed during the call. -/
structure EvalOutcome where
  result : Except FacadeError JSVal
  exposures : List (List Nat × JSVal)

/-- createFlagClient.evaluate. The adapter is abstracted as a function
from the merged context and fallback to either a rejection (payload
irrelevant) or a variant; the onExposure callback is abstracted by the
predicate expThrows saying whether its invocation at (flag, variant)
throws. The try block spans both the adapter call and the callback, so a
rejected adapter yields no exposure and resolves to the fallback, while a
throwing callback is invoked and then caught, also resolving to the
fallback. -/
def clientEvaluate (initDone : Bool) (schema : List Nat → Option SchemaEntry)
    (defaultContext : EvaluationContext)
    (expThrows : List Nat → JSVal → Bool)
    (adapterEval : EvaluationContext → JSVal → Except Unit JSVal)
    (flag : List Nat) (context : EvaluationContext) (defaultValue : JSVal) :
    EvalOutcome :=
  if !initDone then ⟨.error .notInit, []⟩
  else
    let merged := mergeContext defaultContext context
    let fallback := nullishCoalesce defaultValue (getSchemaDefault (schema flag))
    match adapterEval merged fallback with
    | .error _ => ⟨.ok fallback, []⟩
    | .ok variant =>
      if expThrows flag variant then ⟨.ok fallback, [(flag, variant)]⟩
      else ⟨.ok variant, [(flag, variant)]⟩

/-- The local adapter packaged for the facade: its evaluate never
rejects. -/
def localAdapterEval (cfg : LocalAdapterConfig) (flag : List Nat) :
    EvaluationContext → JSVal → Except Unit JSVal :=
  fun context defaultValue => .ok (localEvaluate cfg flag context defaultValue)

/-- The facade lifecycle flags: the initialized boolean and whether the
shared in-flight init promise is set. -/
structure ClientState where
  initDone : Bool
  initPending : Bool
  deriving DecidableEq

/-- State of a freshly created client, before any call. -/
def freshClient : ClientState := ⟨false, false⟩

/-- createFlagClient.close: clears the initialized flag and the pending
promise regardless of the prior state. -/
def closeClient (_s : ClientState) : ClientState := ⟨false, false⟩

/-- Effect of one settled initialization attempt on the lifecycle flags:
an already-initialized client is untouched; otherwise success sets the
ready flag (the promise handle stays set), and failure clears the pending
promise to permit retry. -/
def settleInit (s : ClientState) (success : Bool) : ClientState :=
  if s.initDone then s
  else if success then ⟨true, true⟩ else ⟨false, false⟩

/-- Spec formula, for comparison with the source: the per-character update
written literally in the spec, hash = (hash * 31 - hash) + codepoint(c),
truncated to a signed 32-bit integer at each step. -/
def specHashStep (h : Int) (c : Nat) : Int :=
  toInt32 (h * 31 - h + (c : Int))

/-- Spec formula, for comparison with the source: fold the spec's literal
step over the code units, then take the absolute value of the final
signed result. -/
def specSimpleHash (s : List Nat) : Nat :=
  (s.foldl specHashStep 0).natAbs

/-- Spec formula, for comparison with the source: the bucket computed from
the spec's literal hash formula, reduced modulo 100. -/
def specBucketOf (userId flag : List Nat) (seed : Option (List Nat)) : Nat :=
  specSimpleHash (rolloutKey userId flag seed) % 100

/-- The step the source actually iterates, written without the detour
through the shift: multiply the running hash by 31, add the code unit,
truncate to signed 32 bits. -/
def mul31Step (h : Int) (c : Nat) : Int :=
  toInt32 (h * 31 + (c : Int))

end Crucible

namespace Crucible

/-- Truncation only depends on the residue modulo 2^32. -/
theorem toInt32_congr (x y : Int) (hxy : x % 4294967296 = y % 4294967296) :
    toInt32 x = toInt32 y := by
  unfold toInt32
  rw [hxy]

/-- Truncation preserves the residue modulo 2^32. -/
theorem toInt32_mod (x : Int) : toInt32 x % 4294967296 = x % 4294967296 := by
  unfold toInt32
  split_ifs <;> omega

/-- The source's shift-and-subtract step is exactly multiplication by 31
followed by truncation. -/
theorem hashStep_eq_mul31 (h : Int) (c : Nat) : hashStep h c = mul31Step h c := by
  unfold hashStep mul31Step
  apply toInt32_congr
  have hm := toInt32_mod (h * 32)
  omega

/-- The whole hash agrees with the multiply-by-31 formulation. -/
theorem simpleHash_eq_mul31 (s : List Nat) :
    simpleHash s = (s.foldl mul31Step 0).natAbs := by
  unfold simpleHash
  have hstep : hashStep = mul31Step := by
    funext h c
    exact hashStep_eq_mul31 h c
  rw [hstep]

/-- Claim C2 counterexample: for subjectId code unit 97, flag 98 and seed
99 (the strings a, b, c), the source computes bucket 90 while the spec's
literal per-character formula hash = (hash * 31 - hash) + codepoint(c)
(which multiplies the running hash by 30) computes bucket 39, so the
claimed bit-for-bit agreement fails. -/
theorem bucket_spec_formula_counterexample :
    bucketOf [97] [98] (some [99]) = 90 ∧
    specBucketOf [97] [98] (some [99]) = 39 ∧
    bucketOf [97] [98] (some [99]) ≠ specBucketOf [97] [98] (some [99]) := by
  refine ⟨by decide, by decide, by decide⟩

/-- Claim C2 (amended): for every subjectId, flagName and seed, the bucket
equals the result of building the key subjectId + colon + flagName +
colon + seed, folding hash = (hash * 32 - hash) + codeunit(c) — that is,
hash * 31 + c — truncated to a signed 32-bit integer at each step, then
taking the absolute value of the final signed result modulo 100. -/
theorem bucketOf_eq_mul31_formula (userId flag : List Nat)
    (seed : Option (List Nat)) :
    bucketOf userId flag seed =
      ((userId ++ colonCode ++ flag ++ colonCode ++ seed.getD defaultSeed).foldl
        mul31Step 0).natAbs % 100 := by
  unfold bucketOf rolloutKey
  rw [simpleHash_eq_mul31]

/-- Claim C8: for every subjectId, flagName and seed the computed bucket
lies in [0, 100); the proof covers every value of the truncated signed
hash, including the minimum -2^31, since the absolute value is taken in
unbounded arithmetic exactly as JS Math.abs does on doubles. -/
theorem bucketOf_range (userId flag : List Nat) (seed : Option (List Nat)) :
    0 ≤ (bucketOf userId flag seed : Int) ∧ (bucketOf userId flag seed : Int) < 100 := by
  constructor
  · exact Int.ofNat_nonneg _
  · exact_mod_cast Nat.mod_lt _ (by norm_num)

/-- Claim C3: an evaluation whose context has no userId behaves exactly as
if the adapter had no rollouts configured at all: the rollout step is
skipped (no matter its percentage) and the result falls through to the
rules and then the static value coalesced with the default, so a
rollout's variant is never produced by the rollout step. -/
theorem rollout_skipped_without_userId (cfg : LocalAdapterConfig)
    (flag : List Nat) (attrs : Option AttrMap) (defaultValue : JSVal) :
    localEvaluate cfg flag ⟨none, attrs⟩ defaultValue =
      localEvaluate ⟨cfg.flags, cfg.rules, []⟩ flag ⟨none, attrs⟩ defaultValue := by
  unfold localEvaluate
  cases hr : cfg.rules.find? (fun r => r.flag == flag && r.matchFn ⟨none, attrs⟩) with
  | some rule => simp [hr]
  | none =>
    simp only [hr]
    cases hro : cfg.rollouts.find? (fun r => r.flag == flag) with
    | some ro => simp [hro, truthyUserId]
    | none => simp [hro]

/-- Validation of one percentage succeeds exactly on finite values inside
the closed interval. -/
theorem validatePercentage_ok_iff (p : JSNum) :
    validatePercentage p = Except.ok () ↔
      (p.isFinite = true ∧ p.lt (JSNum.fin 0) = false ∧
        (JSNum.fin 100).lt p = false) := by
  unfold validatePercentage
  cases hf : p.isFinite <;> cases hl : p.lt (JSNum.fin 0) <;>
    cases hg : (JSNum.fin 100).lt p <;> simp [hf, hl, hg]

/-- The constructor's forEach succeeds exactly when every rollout passes
percentage validation. -/
theorem validateRollouts_ok_iff (l : List PercentageRollout) :
    validateRollouts l = Except.ok () ↔
      ∀ r ∈ l, validatePercentage r.percentage = Except.ok () := by
  induction l with
  | nil => simp [validateRollouts]
  | cons r rs ih =>
    unfold validateRollouts
    cases h : validatePercentage r.percentage with
    | error e =>
      simp only [h]
      constructor
      · intro hc
        exact absurd hc (by simp)
      · intro hall
        have := hall r (List.mem_cons_self r rs)
        rw [h] at this
        exact absurd this (by simp)
    | ok u =>
      cases u
      simp only [h, ih]
      constructor
      · intro hall r2 hr2
        rcases List.mem_cons.mp hr2 with h2 | h2
        · rw [h2, h]
        · exact hall r2 h2
      · intro hall r2 hr2
        exact hall r2 (List.mem_cons_of_mem _ hr2)

/-- Claim C6: constructing a LocalAdapter throws exactly when some rollout
percentage is non-finite, below 0 or above 100, and otherwise returns the
adapter; the raised error happens at construction, and evaluation is a
total function that never performs percentage validation (isUserInRollout
handles every JSNum without error). -/
theorem mkLocalAdapter_validates (cfg : LocalAdapterConfig) :
    (mkLocalAdapter cfg = Except.error () ↔
      ∃ r ∈ cfg.rollouts, r.percentage.isFinite = false ∨
        r.percentage.lt (JSNum.fin 0) = true ∨
        (JSNum.fin 100).lt r.percentage = true) ∧
    (mkLocalAdapter cfg = Except.error () ∨ mkLocalAdapter cfg = Except.ok cfg) := by
  have hok : mkLocalAdapter cfg = Except.ok cfg ↔
      validateRollouts cfg.rollouts = Except.ok () := by
    unfold mkLocalAdapter
    cases h : validateRollouts cfg.rollouts with
    | error e => simp
    | ok u => cases u; simp
  have herr : mkLocalAdapter cfg = Except.error () ↔
      ¬ validateRollouts cfg.rollouts = Except.ok () := by
    unfold mkLocalAdapter
    cases h : validateRollouts cfg.rollouts with
    | error e => cases e; simp
    | ok u => cases u; simp
  constructor
  · rw [herr, validateRollouts_ok_iff]
    push_neg
    constructor
    · rintro ⟨r, hr, hne⟩
      refine ⟨r, hr, ?_⟩
      have hne2 : ¬ (r.percentage.isFinite = true ∧
          r.percentage.lt (JSNum.fin 0) = false ∧
          (JSNum.fin 100).lt r.percentage = false) := by
        rw [← validatePercentage_ok_iff]
        exact hne
      cases hf : r.percentage.isFinite with
      | false => exact Or.inl rfl
      | true =>
        cases hl : r.percentage.lt (JSNum.fin 0) with
        | true => exact Or.inr (Or.inl rfl)
        | false =>
          cases hg : (JSNum.fin 100).lt r.percentage with
          | true => exact Or.inr (Or.inr rfl)
          | false => exact absurd ⟨hf, hl, hg⟩ hne2
    · rintro ⟨r, hr, hbad⟩
      refine ⟨r, hr, ?_⟩
      simp only [ne_eq, validatePercentage_ok_iff]
      rintro ⟨h1, h2, h3⟩
      rcases hbad with hb | hb | hb <;> simp_all
  · rcases h : validateRollouts cfg.rollouts with e | u
    · left
      cases e
      exact herr.mpr (by rw [h]; simp)
    · right
      cases u
      exact hok.mpr h

/-- Spreading the same override twice changes nothing on one field. -/
theorem overrideOpt_idem {α : Type} (base ov : Option α) :
    overrideOpt (overrideOpt base ov) ov = overrideOpt base ov := by
  cases ov <;> rfl

/-- Claim C9: the facade's context merge is idempotent in its second
argument: merging the override into an already-merged context changes
nothing, for the shallow userId override and the one-level attribute
merge alike. -/
theorem mergeContext_idem (a b : EvaluationContext) :
    mergeContext (mergeContext a b) b = mergeContext a b := by
  unfold mergeContext
  congr 1
  · exact overrideOpt_idem a.userId b.userId
  · congr 1
    funext k
    show overrideOpt (overrideOpt (attrsOf a k) (attrsOf b k)) (attrsOf b k)
      = overrideOpt (attrsOf a k) (attrsOf b k)
    exact overrideOpt_idem (attrsOf a k) (attrsOf b k)

/-- Claim C1: when the merged context finds a matching rule, and the flag
simultaneously has a matching 100-percent rollout, a truthy userId, a
non-nullish static value, a non-nullish caller default and a schema
default, the client resolves to the matching rule's variant: the first
applicable step of the chain wins and none of the later steps influences
the result (the conclusion holds for every rollout list, static map,
caller default and schema satisfying the hypotheses). -/
theorem rule_wins_precedence (cfg : LocalAdapterConfig)
    (schema : List Nat → Option SchemaEntry)
    (defaultContext context : EvaluationContext)
    (expThrows : List Nat → JSVal → Bool)
    (flag : List Nat) (defaultValue : JSVal) (rule : RolloutRule)
    (hrule : cfg.rules.find?
      (fun r => r.flag == flag && r.matchFn (mergeContext defaultContext context))
        = some rule)
    (hrollout : ∃ ro ∈ cfg.rollouts, ro.flag = flag ∧ ro.percentage = JSNum.fin 100)
    (huser : truthyUserId (mergeContext defaultContext context).userId = true)
    (hstatic : (cfg.flags flag).isNullish = false)
    (hdefault : defaultValue.isNullish = false)
    (hschema : getSchemaDefault (schema flag) ≠ JSVal.undefined)
    (hexp : expThrows flag rule.variant = false) :
    (clientEvaluate true schema defaultContext expThrows
        (localAdapterEval cfg flag) flag context defaultValue).result
      = Except.ok rule.variant := by
  simp [clientEvaluate, localAdapterEval, localEvaluate, hrule, hexp]

/-- Claim C1 witness: a concrete client where a matching rule, a matching
100-percent rollout, a static value, a caller default and a schema default
are all configured at once resolves to the rule's variant. -/
theorem rule_wins_precedence_witness :
    (clientEvaluate true (fun _ => some (SchemaEntry.enum [[108]]))
        ⟨none, none⟩ (fun _ _ => false)
        (localAdapterEval
          ⟨fun _ => JSVal.str [115],
           [⟨[102], fun _ => true, JSVal.str [118]⟩],
           [⟨[102], JSNum.fin 100, JSVal.str [114], none⟩]⟩ [102])
        [102] ⟨some [117], none⟩ (JSVal.str [100])).result
      = Except.ok (JSVal.str [118]) :=
  rule_wins_precedence
    ⟨fun _ => JSVal.str [115],
     [⟨[102], fun _ => true, JSVal.str [118]⟩],
     [⟨[102], JSNum.fin 100, JSVal.str [114], none⟩]⟩
    (fun _ => some (SchemaEntry.enum [[108]])) ⟨none, none⟩ ⟨some [117], none⟩
    (fun _ _ => false) [102] (JSVal.str [100])
    ⟨[102], fun _ => true, JSVal.str [118]⟩
    rfl
    ⟨⟨[102], JSNum.fin 100, JSVal.str [114], none⟩,
      List.mem_cons_self _ _, rfl, rfl⟩
    rfl rfl rfl (by decide) rfl

/-- Claim C4: when the adapter rejects on the merged context and resolved
fallback, the facade resolves (it does not reject) with the fallback
(caller default coalesced with the schema default) and performs no
exposure-callback invocation during that call. -/
theorem adapter_failure_contained (schema : List Nat → Option SchemaEntry)
    (defaultContext context : EvaluationContext)
    (expThrows : List Nat → JSVal → Bool)
    (adapterEval : EvaluationContext → JSVal → Except Unit JSVal)
    (flag : List Nat) (defaultValue : JSVal) (e : Unit)
    (hfail : adapterEval (mergeContext defaultContext context)
        (nullishCoalesce defaultValue (getSchemaDefault (schema flag)))
      = Except.error e) :
    (clientEvaluate true schema defaultContext expThrows adapterEval
        flag context defaultValue).result
      = Except.ok (nullishCoalesce defaultValue (getSchemaDefault (schema flag))) ∧
    (clientEvaluate true schema defaultContext expThrows adapterEval
        flag context defaultValue).exposures = [] := by
  constructor <;> simp [clientEvaluate, hfail]

/-- Claim C4 witness: a concrete client over an always-rejecting adapter
resolves to the caller default and fires no exposure. -/
theorem adapter_failure_contained_witness :
    (clientEvaluate true (fun _ => some SchemaEntry.boolTag) ⟨none, none⟩
        (fun _ _ => false) (fun _ _ => Except.error ()) [102] ⟨none, none⟩
        (JSVal.str [99])).result = Except.ok (JSVal.str [99]) ∧
    (clientEvaluate true (fun _ => some SchemaEntry.boolTag) ⟨none, none⟩
        (fun _ _ => false) (fun _ _ => Except.error ()) [102] ⟨none, none⟩
        (JSVal.str [99])).exposures = [] :=
  adapter_failure_contained (fun _ => some SchemaEntry.boolTag) ⟨none, none⟩
    ⟨none, none⟩ (fun _ _ => false) (fun _ _ => Except.error ()) [102]
    (JSVal.str [99]) () rfl

/-- Claim C5 counterexample: the adapter resolves every call to the string
of code unit 97, yet with a throwing exposure callback the facade
resolves to the fallback string of code unit 98 instead of the adapter's
variant, because the callback runs inside the try block; so the claim
that the returned value is unchanged by the callback's behaviour is
false (the error still does not propagate: the call resolves). -/
theorem exposure_throw_changes_result :
    (clientEvaluate true (fun _ => none) ⟨none, none⟩ (fun _ _ => true)
        (fun _ _ => Except.ok (JSVal.str [97])) [102] ⟨none, none⟩
        (JSVal.str [98])).result = Except.ok (JSVal.str [98]) ∧
    JSVal.str [98] ≠ JSVal.str [97] := by
  exact ⟨rfl, by decide⟩

/-- Claim C5 (amended): when the adapter resolves to v the facade never
rejects; it resolves to exactly v when the exposure callback does not
throw, and a throwing callback does not propagate its error but makes
the facade resolve with the fallback instead of v; the callback is
invoked exactly once with (flag, v) in both cases. -/
theorem exposure_behavior (schema : List Nat → Option SchemaEntry)
    (defaultContext context : EvaluationContext)
    (expThrows : List Nat → JSVal → Bool)
    (adapterEval : EvaluationContext → JSVal → Except Unit JSVal)
    (flag : List Nat) (defaultValue : JSVal) (v : JSVal)
    (hok : adapterEval (mergeContext defaultContext context)
        (nullishCoalesce defaultValue (getSchemaDefault (schema flag)))
      = Except.ok v) :
    (expThrows flag v = false →
      (clientEvaluate true schema defaultContext expThrows adapterEval
          flag context defaultValue).result = Except.ok v) ∧
    (expThrows flag v = true →
      (clientEvaluate true schema defaultContext expThrows adapterEval
          flag context defaultValue).result
        = Except.ok (nullishCoalesce defaultValue
            (getSchemaDefault (schema flag)))) ∧
    (clientEvaluate true schema defaultContext expThrows adapterEval
        flag context defaultValue).exposures = [(flag, v)] := by
  refine ⟨fun hexp => ?_, fun hexp => ?_, ?_⟩
  · simp [clientEvaluate, hok, hexp]
  · simp [clientEvaluate, hok, hexp]
  · cases hexp : expThrows flag v <;> simp [clientEvaluate, hok, hexp]

/-- Claim C5 amended witness: a concrete client with a non-throwing
callback returns the adapter's variant and records one exposure. -/
theorem exposure_behavior_witness :
    ((fun _ _ => false : List Nat → JSVal → Bool) [102] (JSVal.str [97]) = false →
      (clientEvaluate true (fun _ => none) ⟨none, none⟩ (fun _ _ => false)
          (fun _ _ => Except.ok (JSVal.str [97])) [102] ⟨none, none⟩
          (JSVal.str [98])).result = Except.ok (JSVal.str [97])) ∧
    ((fun _ _ => false : List Nat → JSVal → Bool) [102] (JSVal.str [97]) = true →
      (clientEvaluate true (fun _ => none) ⟨none, none⟩ (fun _ _ => false)
          (fun _ _ => Except.ok (JSVal.str [97])) [102] ⟨none, none⟩
          (JSVal.str [98])).result
        = Except.ok (nullishCoalesce (JSVal.str [98])
            (getSchemaDefault ((fun _ => none) [102])))) ∧
    (clientEvaluate true (fun _ => none) ⟨none, none⟩ (fun _ _ => false)
        (fun _ _ => Except.ok (JSVal.str [97])) [102] ⟨none, none⟩
        (JSVal.str [98])).exposures = [([102], JSVal.str [97])] :=
  exposure_behavior (fun _ => none) ⟨none, none⟩ ⟨none, none⟩ (fun _ _ => false)
    (fun _ _ => Except.ok (JSVal.str [97])) [102] (JSVal.str [98])
    (JSVal.str [97]) rfl

/-- Claim C7: with the ready flag unset the facade rejects every evaluate
call with the not-initialized error (and fires no exposure), never
resolving to a default; a fresh client, a closed client (whatever its
prior state) and a client whose initialization failed all have the ready
flag unset. -/
theorem evaluate_guard (schema : List Nat → Option SchemaEntry)
    (defaultContext context : EvaluationContext)
    (expThrows : List Nat → JSVal → Bool)
    (adapterEval : EvaluationContext → JSVal → Except Unit JSVal)
    (flag : List Nat) (defaultValue : JSVal) (s : ClientState) :
    (clientEvaluate false schema defaultContext expThrows adapterEval
        flag context defaultValue).result = Except.error FacadeError.notInit ∧
    (clientEvaluate false schema defaultContext expThrows adapterEval
        flag context defaultValue).exposures = [] ∧
    freshClient.initDone = false ∧
    (closeClient s).initDone = false ∧
    (settleInit freshClient false).initDone = false := by
  refine ⟨rfl, rfl, rfl, rfl, rfl⟩

/-- Claim C10: a defined-but-falsy static value (false, 0, the empty
string) is returned by the adapter rather than skipped, null and
undefined statics fall through to the supplied default, and a
defined-but-falsy caller default is preferred over the schema default as
the facade's fallback, since both steps use nullish coalescing. -/
theorem falsy_values_not_skipped (sv dv : JSVal) (flag : List Nat)
    (context : EvaluationContext) (schema : List Nat → Option SchemaEntry)
    (defaultContext : EvaluationContext)
    (expThrows : List Nat → JSVal → Bool)
    (hs : sv.isNullish = false) (hd : dv.isNullish = false) :
    localEvaluate ⟨fun _ => sv, [], []⟩ flag context dv = sv ∧
    localEvaluate ⟨fun _ => JSVal.null, [], []⟩ flag context dv = dv ∧
    localEvaluate ⟨fun _ => JSVal.undefined, [], []⟩ flag context dv = dv ∧
    (clientEvaluate true schema defaultContext expThrows
        (fun _ _ => Except.error ()) flag context dv).result = Except.ok dv := by
  refine ⟨?_, ?_, ?_, ?_⟩
  · simp [localEvaluate, nullishCoalesce, hs]
  · simp [localEvaluate, nullishCoalesce, JSVal.isNullish]
  · simp [localEvaluate, nullishCoalesce, JSVal.isNullish]
  · simp [clientEvaluate, nullishCoalesce, hd]

/-- Claim C10 witness: the boolean false as static value is returned, and
the number 0 as caller default is used as the fallback in preference to
the schema default true-type default. -/
theorem falsy_values_not_skipped_witness :
    localEvaluate ⟨fun _ => JSVal.bool false, [], []⟩ [102] ⟨none, none⟩
        (JSVal.num 0) = JSVal.bool false ∧
    localEvaluate ⟨fun _ => JSVal.null, [], []⟩ [102] ⟨none, none⟩
        (JSVal.num 0) = JSVal.num 0 ∧
    localEvaluate ⟨fun _ => JSVal.undefined, [], []⟩ [102] ⟨none, none⟩
        (JSVal.num 0) = JSVal.num 0 ∧
    (clientEvaluate true (fun _ => some SchemaEntry.boolTag) ⟨none, none⟩
        (fun _ _ => false) (fun _ _ => Except.error ()) [102] ⟨none, none⟩
        (JSVal.num 0)).result = Except.ok (JSVal.num 0) :=
  falsy_values_not_skipped (JSVal.bool false) (JSVal.num 0) [102] ⟨none, none⟩
    (fun _ => some SchemaEntry.boolTag) ⟨none, none⟩ (fun _ _ => false) rfl rfl

end Crucible
